import Mathlib

/-!
Verification of the EBS-volume reconciler (`nixops_aws/resources/ebs_volume.py`).

The reconciler is embedded shallowly: the persisted resource record becomes the
structure `St`, the desired configuration (`EbsVolumeOptions`) becomes a Lean
structure, and provider interactions (boto/botocore calls, credential lookup,
the confirmation prompt) are supplied through an `Env` record of response
functions.  Each method (`create`, `check`, `destroy`, `_get_vol`) becomes a
pure function from the old state and environment to an `Except` of the raised
exception or the new state, paired with a trace of the provider-mutating calls
it issued (`Effects`).  Exceptions are modelled with the exact message strings
the Python code raises.
-/

namespace EbsVolume

/-- Lifecycle states used by the reconciler: `nixops.resources.ResourceState`
MISSING / STARTING / UP (the only ones this resource uses). -/
inductive RState where
  | missing
  | starting
  | up
deriving Repr, DecidableEq

/-- Modelled from the spec: the `EbsVolumeOptions` record produced by the
configuration layer (its defining file `types/ebs_volume.py` is not part of
the sources at hand; the spec's data-model section lists its fields).
Optional string fields use `""` for "unset" exactly where the Python code
tests truthiness (`accessKeyId`, `snapshot`, `volumeId`), and `Option` where
the code compares against `None` (`zone`, `iops`). -/
structure EbsVolumeOptions where
  accessKeyId : String
  region : String
  zone : Option String
  size : Nat
  volumeType : String
  iops : Option Int
  snapshot : String
  volumeId : String
  tags : List (String × String)
deriving Repr, DecidableEq

/-- The persisted resource record: the `attr_property` fields of
`EBSVolumeState`.  Every field defaults to `None` in the store, hence the
`Option` types; `state` defaults to MISSING. -/
structure St where
  state : RState
  access_key_id : Option String
  region : Option String
  zone : Option String
  volume_id : Option String
  size : Option Nat
  iops : Option Int
  volume_type : Option String
deriving Repr, DecidableEq

/-- A brand-new record, as first materialised by the store. -/
def St.initial : St :=
  { state := .missing, access_key_id := none, region := none, zone := none,
    volume_id := none, size := none, iops := none, volume_type := none }

/-- A volume record as returned by the provider's describe-volumes call
(the fields `_get_vol` reads). -/
structure Vol where
  volumeType : String
  iops : Int
  availabilityZone : String
  size : Nat
deriving Repr, DecidableEq

/-- The exceptions the reconciler can raise.  `exc` carries the message of a
plain `Exception`; the other constructors stand for errors propagated from
collaborators (a botocore `ClientError`, the snapshot-count assertion, and a
failure of the availability wait). -/
inductive Err where
  | exc (msg : String)
  | clientError
  | assertFail
  | waitError
deriving Repr, DecidableEq

/-- One `create_volume` provider call with the arguments the code passes. -/
structure CreateVolumeCall where
  zone : String
  size : Nat
  snapshot : String
  iops : Option Int
  volume_type : String
deriving Repr, DecidableEq

/-- Trace of provider interactions issued by one method call. -/
structure Effects where
  createCalls : List CreateVolumeCall
  deleteCalls : List (Option String)
  tagUpdates : Nat
  lookups : Nat
  waits : Nat
deriving Repr, DecidableEq

def Effects.empty : Effects :=
  { createCalls := [], deleteCalls := [], tagUpdates := 0, lookups := 0, waits := 0 }

def Effects.append (a b : Effects) : Effects :=
  { createCalls := a.createCalls ++ b.createCalls,
    deleteCalls := a.deleteCalls ++ b.deleteCalls,
    tagUpdates := a.tagUpdates + b.tagUpdates,
    lookups := a.lookups + b.lookups,
    waits := a.waits + b.waits }

/-- The external collaborators, as response functions.
`envAccessKey` models `nixops_aws.ec2_utils.get_access_key_id()`;
`describeVolume` the boto3 `describe_volumes` call used by `_get_vol`
(`none` = `ClientError`); `snapshotSize` the `get_all_snapshots` lookup
(`none` = lookup does not yield exactly one snapshot); `createVolumeId` the id
the provider assigns on `create_volume`.
Modelled from the spec: `getVolumeById` stands for
`nixops_aws.ec2_utils.get_volume_by_id` ("looks up the provider resource,
tolerating already-gone": `false` = the volume no longer exists), and
`volumeAvailable` for `nixops_aws.ec2_utils.wait_for_volume_available`
(`true` = the bounded wait ends with the volume available or in-use, `false` =
it raises); both helpers live outside the file at hand and are taken at the
interface the spec gives them.  `confirm` is the yes/no prompt. -/
structure Env where
  envAccessKey : Option String
  describeVolume : String → Option Vol
  snapshotSize : String → Option Nat
  createVolumeId : String
  getVolumeById : Option String → Bool
  volumeAvailable : Option String → Bool
  confirm : Bool

/-- `self._exists()`: the resource exists once past MISSING. -/
def _exists (st : St) : Bool :=
  st.state ≠ .missing

/-- Python truthiness of the resolved access key (`not self.access_key_id`):
`None` and `""` are falsy. -/
def keyTruthy : Option String → Bool
  | none => false
  | some k => k ≠ ""

/-- `defn.config.accessKeyId or nixops_aws.ec2_utils.get_access_key_id()`. -/
def resolveAccessKey (env : Env) (defn : EbsVolumeOptions) : Option String :=
  if defn.accessKeyId ≠ "" then some defn.accessKeyId else env.envAccessKey

def msgNoKey : String :=
  "please set ‘accessKeyId’, $EC2_ACCESS_KEY or $AWS_ACCESS_KEY_ID"

def msgRegionZone : String :=
  "changing the region or availability zone of an EBS volume is not supported"

def msgSize : String :=
  "changing the size an EBS volume is currently not supported"

def msgType : String :=
  "changing the type of an EBS volume is currently not supported"

def msgIops : String :=
  "changing the IOPS of an EBS volume is currently not supported"

def msgZone : String :=
  "please set a zone where the volume will be created"

/-- The immutable-attribute validation block run when the resource exists
(`create`, lines 114-136), in source order: region/availability-zone, then
size (with `0` meaning "don't care"), then volume type (only when a type has
been recorded), then IOPS.  Returns the first raised exception, if any. -/
def checkImmutable (st : St) (defn : EbsVolumeOptions) : Option Err :=
  if st.region ≠ some defn.region ∨ st.zone ≠ defn.zone then
    some (.exc msgRegionZone)
  else if defn.size ≠ 0 ∧ st.size ≠ some defn.size then
    some (.exc msgSize)
  else if st.volume_type ≠ none ∧ some defn.volumeType ≠ st.volume_type then
    some (.exc msgType)
  else if defn.iops ≠ st.iops then
    some (.exc msgIops)
  else
    none

/-- `EBSVolumeState._get_vol`: describe the volume named by
`config.volumeId`, derive `iops` from the provider's value for the
IOPS-provisioned types io1/io2 (else from the configuration), and commit the
observed record with state STARTING in one transaction. -/
def _get_vol (env : Env) (st : St) (config : EbsVolumeOptions) : Except Err St :=
  match env.describeVolume config.volumeId with
  | none => .error .clientError
  | some v =>
    let iops := if v.volumeType = "io1" ∨ v.volumeType = "io2" then some v.iops
                else config.iops
    .ok { st with
          state := .starting,
          region := some config.region,
          zone := some v.availabilityZone,
          size := some v.size,
          volume_id := some config.volumeId,
          iops := iops,
          volume_type := some v.volumeType }

/-- The `state == MISSING` block of `create` (lines 138-188): adoption when
`volumeId` is set (truthy), otherwise the creation path — substitute the
snapshot's size when `size == 0` and a snapshot is given (note: this writes
into the configuration record, which is why the possibly-updated options are
returned), require a zone, issue `create_volume`, and commit the new record
with state STARTING.  The returned `Effects` record the provider calls. -/
def createMissing (env : Env) (st : St) (defn : EbsVolumeOptions) :
    Except Err (St × EbsVolumeOptions × Effects) :=
  if defn.volumeId ≠ "" then
    match _get_vol env st defn with
    | .error e => .error e
    | .ok st1 => .ok (st1, defn, { Effects.empty with lookups := 1 })
  else
    let sized : Except Err EbsVolumeOptions :=
      if defn.size = 0 ∧ defn.snapshot ≠ "" then
        match env.snapshotSize defn.snapshot with
        | none => .error .assertFail
        | some sz => .ok { defn with size := sz }
      else
        .ok defn
    match sized with
    | .error e => .error e
    | .ok defn1 =>
      match defn1.zone with
      | none => .error (.exc msgZone)
      | some z =>
        .ok ({ st with
               state := .starting,
               region := some defn1.region,
               zone := defn1.zone,
               size := some defn1.size,
               volume_id := some env.createVolumeId,
               iops := defn1.iops,
               volume_type := some defn1.volumeType },
             defn1,
             { Effects.empty with
               createCalls := [{ zone := z, size := defn1.size,
                                 snapshot := defn1.snapshot, iops := defn1.iops,
                                 volume_type := defn1.volumeType }] })

/-- The `state == STARTING or check` block of `create` (lines 190-202):
reconcile tags, wait for the volume to be available or in-use, then mark UP. -/
def createFinish (env : Env) (st : St) (chk : Bool) :
    Except Err (St × Effects) :=
  if st.state = .starting ∨ chk then
    if env.volumeAvailable st.volume_id then
      .ok ({ st with state := .up },
           { Effects.empty with tagUpdates := 1, waits := 1 })
    else
      .error .waitError
  else
    .ok (st, Effects.empty)

/-- `EBSVolumeState.create`: resolve and store the access key (the stored
`access_key_id` is overwritten before anything else), fail when none
resolves, run the immutable-attribute checks when the resource exists, run
the MISSING block when the state is MISSING, then the STARTING/check block.
Returns the new record, the (possibly size-updated) configuration, and the
trace of provider calls. -/
def create (env : Env) (st0 : St) (defn : EbsVolumeOptions) (chk : Bool) :
    Except Err (St × EbsVolumeOptions × Effects) :=
  let key := resolveAccessKey env defn
  if keyTruthy key = false then
    .error (.exc msgNoKey)
  else
    let st := { st0 with access_key_id := key }
    match (if _exists st then checkImmutable st defn else none) with
    | some e => .error e
    | none =>
      match (if st.state = .missing then createMissing env st defn
             else .ok (st, defn, Effects.empty)) with
      | .error e => .error e
      | .ok (st1, defn1, eff1) =>
        match createFinish env st1 chk with
        | .error e => .error e
        | .ok (st2, eff2) => .ok (st2, defn1, eff1.append eff2)

/-- `EBSVolumeState.check`: look the volume up; when the provider no longer
has it, fall back to MISSING.  No other field is touched. -/
def check (env : Env) (st : St) : St :=
  if env.getVolumeById st.volume_id then st else { st with state := .missing }

/-- `EBSVolumeState.destroy`: succeed immediately when MISSING; succeed
without deleting when the provider already lost the volume; ask for
confirmation and stop (returning `false`) when declined; otherwise delete.
The persisted record is never modified, so it is returned unchanged. -/
def destroy (env : Env) (st : St) (wipe : Bool) : Bool × St × Effects :=
  if _exists st = false then
    (true, st, Effects.empty)
  else if env.getVolumeById st.volume_id = false then
    (true, st, { Effects.empty with lookups := 1 })
  else if env.confirm = false then
    (false, st, { Effects.empty with lookups := 1 })
  else
    (true, st,
     { Effects.empty with lookups := 1, deleteCalls := [st.volume_id] })

/-! ## Concrete data for witnesses and counterexamples -/

/-- A concrete provider environment: one pre-existing volume `vol-1` in
`us-east-1a`, one snapshot `snap-1` of 50 GiB, fresh volumes get id
`vol-new`, every wait succeeds, the prompt answers yes. -/
def envA : Env :=
  { envAccessKey := some "ENVKEY",
    describeVolume := fun i =>
      if i = "vol-1" then
        some { volumeType := "gp2", iops := 0, availabilityZone := "us-east-1a",
               size := 10 }
      else none,
    snapshotSize := fun s => if s = "snap-1" then some 50 else none,
    createVolumeId := "vol-new",
    getVolumeById := fun v => v == some "vol-new" || v == some "vol-1",
    volumeAvailable := fun _ => true,
    confirm := true }

/-- `envA` with the pre-existing volume gone from the provider. -/
def envGone : Env :=
  { envA with getVolumeById := fun _ => false, describeVolume := fun _ => none }

/-- `envA` with the confirmation prompt answering no. -/
def envNo : Env :=
  { envA with confirm := false }

/-- A fresh-creation configuration: 20 GiB gp2 in us-east-1a, no snapshot,
no adopted volume id. -/
def defnFresh : EbsVolumeOptions :=
  { accessKeyId := "AKIA1", region := "us-east-1", zone := some "us-east-1a",
    size := 20, volumeType := "gp2", iops := none, snapshot := "",
    volumeId := "", tags := [] }

/-- The record `create` builds for `defnFresh` under `envA` before the final
transition to UP. -/
def stFresh : St :=
  { state := .up, access_key_id := some "AKIA1", region := some "us-east-1",
    zone := some "us-east-1a", volume_id := some "vol-new", size := some 20,
    iops := none, volume_type := some "gp2" }

/-- The provider-call trace of a fresh creation from `defnFresh`. -/
def effFresh : Effects :=
  { Effects.empty with
    createCalls := [{ zone := "us-east-1a", size := 20, snapshot := "",
                      iops := none, volume_type := "gp2" }],
    tagUpdates := 1, waits := 1 }

/-! ## Error-inversion helper lemmas -/

theorem createFinish_error (env : Env) (st : St) (chk : Bool) (e : Err)
    (h : createFinish env st chk = .error e) : e = .waitError := by
  unfold createFinish at h
  split at h
  · split at h
    · exact absurd h (by simp)
    · simpa using h.symm
  · exact absurd h (by simp)

theorem createMissing_error_exc (env : Env) (st : St) (defn : EbsVolumeOptions)
    (m : String) (h : createMissing env st defn = .error (.exc m)) :
    m = msgZone := by
  simp only [createMissing] at h
  by_cases hv : defn.volumeId ≠ ""
  · simp only [if_pos hv] at h
    rcases hd : env.describeVolume defn.volumeId with _ | v <;>
      simp [_get_vol, hd] at h
  · simp only [if_neg hv] at h
    by_cases hs : defn.size = 0 ∧ defn.snapshot ≠ ""
    · simp only [if_pos hs] at h
      rcases hsnap : env.snapshotSize defn.snapshot with _ | sz
      · simp [hsnap] at h
      · simp only [hsnap] at h
        rcases hz : defn.zone with _ | z
        · simp [hz] at h
          exact h.symm
        · simp [hz] at h
    · simp only [if_neg hs] at h
      rcases hz : defn.zone with _ | z
      · simp [hz] at h
        exact h.symm
      · simp [hz] at h

theorem checkImmutable_cases (st : St) (defn : EbsVolumeOptions) (e : Err)
    (h : checkImmutable st defn = some e) :
    e = .exc msgRegionZone ∨ e = .exc msgSize ∨ e = .exc msgType ∨
    e = .exc msgIops := by
  unfold checkImmutable at h
  split at h
  · simp at h; simp [h]
  · split at h
    · simp at h; simp [h]
    · split at h
      · simp at h; simp [h]
      · split at h
        · simp at h; simp [h]
        · simp at h

theorem checkImmutable_no_type_error (st : St) (defn : EbsVolumeOptions)
    (hvt : st.volume_type = none) :
    checkImmutable st defn ≠ some (.exc msgType) := by
  unfold checkImmutable
  split
  · simp [msgRegionZone, msgType]
  · split
    · simp [msgSize, msgType]
    · split
      · rename_i hc
        exact absurd hvt hc.1
      · split
        · simp [msgIops, msgType]
        · simp

theorem checkImmutable_no_size_error (st : St) (defn : EbsVolumeOptions)
    (hsz : defn.size = 0) :
    checkImmutable st defn ≠ some (.exc msgSize) := by
  unfold checkImmutable
  split
  · simp [msgRegionZone, msgSize]
  · split
    · rename_i hc
      exact absurd hsz hc.1
    · split
      · simp [msgType, msgSize]
      · split
        · simp [msgIops, msgSize]
        · simp

/-- Any plain `Exception` raised by `create` is the missing-credential
message, one of the four immutable-attribute messages (raised by the
validation block on the access-key-updated record), or the missing-zone
message. -/
theorem create_error_exc (env : Env) (st0 : St) (defn : EbsVolumeOptions)
    (chk : Bool) (m : String)
    (h : create env st0 defn chk = .error (.exc m)) :
    m = msgNoKey ∨
    checkImmutable { st0 with access_key_id := resolveAccessKey env defn } defn
      = some (.exc m) ∨
    m = msgZone := by
  simp only [create] at h
  split at h
  · left
    simp at h
    exact h.symm
  · split at h
    · rename_i e heq
      simp at h
      split at heq
      · right; left
        rw [heq, h]
      · simp at heq
    · split at h
      · rename_i e heq
        simp at h
        split at heq
        · right; right
          exact createMissing_error_exc env _ defn m (h ▸ heq)
        · simp at heq
      · rename_i p heq
        split at h
        · rename_i e2 heq2
          simp at h
          have := createFinish_error env _ chk e2 heq2
          rw [this] at h
          simp at h
        · simp at h

/-! ## Claims -/

/-- C10: when the stored record has no volume type (`volume_type` is None),
the type-immutability validation is skipped entirely: `create` on an existing
resource (state ≠ MISSING) never raises the volume-type-change error, even
when the Definition's `volumeType` differs from the volume's actual type. -/
theorem create_no_type_error_when_type_unset
    (env : Env) (st : St) (defn : EbsVolumeOptions) (chk : Bool)
    (hvt : st.volume_type = none) (hex : st.state ≠ .missing) :
    create env st defn chk ≠ .error (.exc msgType) := by
  intro h
  rcases create_error_exc env st defn chk msgType h with h1 | h1 | h1
  · exact absurd h1 (by decide)
  · exact checkImmutable_no_type_error _ defn hvt h1
  · exact absurd h1 (by decide)

theorem create_no_type_error_when_type_unset_witness :
    create envA { stFresh with volume_type := none }
        { defnFresh with volumeType := "io1" } false ≠
      .error (.exc msgType) :=
  create_no_type_error_when_type_unset envA { stFresh with volume_type := none }
    { defnFresh with volumeType := "io1" } false rfl (by decide)

/-- C8: on an existing resource (state ≠ MISSING), a Definition size of 0 is
"don't care" and never produces the size-change error, whatever the stored
size; a nonzero Definition size differing from the stored size makes `create`
fail with the size-change error (the credential must resolve and the
region/zone check, which runs first, must pass). -/
theorem create_size_check
    (env : Env) (st : St) (defn : EbsVolumeOptions) (chk : Bool)
    (hex : st.state ≠ .missing) :
    (defn.size = 0 → create env st defn chk ≠ .error (.exc msgSize)) ∧
    (defn.size ≠ 0 → st.size ≠ some defn.size →
     keyTruthy (resolveAccessKey env defn) = true →
     st.region = some defn.region → st.zone = defn.zone →
     create env st defn chk = .error (.exc msgSize)) := by
  constructor
  · intro hsz h
    rcases create_error_exc env st defn chk msgSize h with h1 | h1 | h1
    · exact absurd h1 (by decide)
    · exact checkImmutable_no_size_error _ defn hsz h1
    · exact absurd h1 (by decide)
  · intro hsz hdiff hkey hreg hzone
    simp [create, checkImmutable, _exists, hex, hkey, hreg, hzone, hsz, hdiff]

theorem create_size_check_witness :
    ((20 : Nat) = 0 →
      create envA stFresh { defnFresh with size := 20 } false ≠
        .error (.exc msgSize)) ∧
    ((20 : Nat) ≠ 0 → stFresh.size ≠ some 20 →
     keyTruthy (resolveAccessKey envA { defnFresh with size := 20 }) = true →
     stFresh.region = some defnFresh.region → stFresh.zone = defnFresh.zone →
     create envA stFresh { defnFresh with size := 20 } false =
       .error (.exc msgSize)) ∧
    create envA stFresh { defnFresh with size := 0 } false ≠
      .error (.exc msgSize) ∧
    create envA stFresh { defnFresh with size := 30 } false =
      .error (.exc msgSize) :=
  ⟨(create_size_check envA stFresh { defnFresh with size := 20 } false
      (by decide)).1,
   (create_size_check envA stFresh { defnFresh with size := 20 } false
      (by decide)).2,
   (create_size_check envA stFresh { defnFresh with size := 0 } false
      (by decide)).1 rfl,
   (create_size_check envA stFresh { defnFresh with size := 30 } false
      (by decide)).2 (by decide) (by decide) rfl rfl rfl⟩

/-- C9: `destroy` returns true without any provider interaction when the
state is MISSING; returns true without deleting when the provider already
lost the volume; returns false and deletes nothing when the confirmation is
declined; and issues the delete (returning true) exactly when confirmation is
granted.  The persisted record is never modified. -/
theorem destroy_cases (env : Env) (st : St) (w : Bool) :
    (st.state = .missing → destroy env st w = (true, st, Effects.empty)) ∧
    (st.state ≠ .missing → env.getVolumeById st.volume_id = false →
      destroy env st w = (true, st, { Effects.empty with lookups := 1 })) ∧
    (st.state ≠ .missing → env.getVolumeById st.volume_id = true →
      env.confirm = false →
      destroy env st w = (false, st, { Effects.empty with lookups := 1 })) ∧
    (st.state ≠ .missing → env.getVolumeById st.volume_id = true →
      env.confirm = true →
      destroy env st w =
        (true, st,
         { Effects.empty with lookups := 1, deleteCalls := [st.volume_id] })) := by
  refine ⟨fun h1 => ?_, fun h1 h2 => ?_, fun h1 h2 h3 => ?_, fun h1 h2 h3 => ?_⟩
  · simp [destroy, _exists, h1]
  · simp [destroy, _exists, h1, h2]
  · simp [destroy, _exists, h1, h2, h3]
  · simp [destroy, _exists, h1, h2, h3]

theorem destroy_cases_witness :
    destroy envA St.initial false = (true, St.initial, Effects.empty) ∧
    destroy envGone stFresh false =
      (true, stFresh, { Effects.empty with lookups := 1 }) ∧
    destroy envNo stFresh false =
      (false, stFresh, { Effects.empty with lookups := 1 }) ∧
    destroy envA stFresh false =
      (true, stFresh,
       { Effects.empty with lookups := 1, deleteCalls := [some "vol-new"] }) :=
  ⟨(destroy_cases envA St.initial false).1 rfl,
   (destroy_cases envGone stFresh false).2.1 (by decide) rfl,
   (destroy_cases envNo stFresh false).2.2.1 (by decide) rfl rfl,
   (destroy_cases envA stFresh false).2.2.2 (by decide) rfl rfl⟩

set_option maxRecDepth 40000 in
/-- C4 counterexample: the zone-change failure does not name the specific
offending field or the old/new values.  Changing only the zone and changing
only the region raise the identical fixed message, and that message contains
neither the stored zone `us-east-1a` nor the requested zone `us-east-1b`. -/
theorem create_zone_change_error_is_anonymous :
    create envA stFresh { defnFresh with zone := some "us-east-1b" } false =
      .error (.exc msgRegionZone) ∧
    create envA stFresh { defnFresh with region := "eu-west-1" } false =
      .error (.exc msgRegionZone) ∧
    ¬ List.IsInfix "us-east-1a".data msgRegionZone.data ∧
    ¬ List.IsInfix "us-east-1b".data msgRegionZone.data :=
  ⟨rfl, rfl, by decide, by decide⟩

/-- C4 amended: on an existing resource (with a resolvable credential), a
Definition whose zone differs from the stored zone always makes `create`
fail, regardless of the other fields, with the fixed message "changing the
region or availability zone of an EBS volume is not supported" — which
mentions the zone only generically, not the offending field's old or new
value. -/
theorem create_zone_change_fails
    (env : Env) (st : St) (defn : EbsVolumeOptions) (chk : Bool)
    (hex : st.state ≠ .missing)
    (hkey : keyTruthy (resolveAccessKey env defn) = true)
    (hzone : st.zone ≠ defn.zone) :
    create env st defn chk = .error (.exc msgRegionZone) := by
  simp [create, checkImmutable, _exists, hex, hkey, hzone]

theorem create_zone_change_fails_witness :
    create envA stFresh { defnFresh with zone := some "us-west-2a" } true =
      .error (.exc msgRegionZone) :=
  create_zone_change_fails envA stFresh
    { defnFresh with zone := some "us-west-2a" } true (by decide) rfl (by decide)

/-- C5 counterexample: when `check` finds the provider-side volume gone it
sets the state to MISSING but does not clear `volume_id`, so immediately
after drift detection the record is MISSING with a stale volume id still
present. -/
theorem check_leaves_stale_volume_id :
    (check envGone stFresh).state = .missing ∧
    (check envGone stFresh).volume_id = some "vol-new" :=
  ⟨rfl, rfl⟩

/-- `volume_id` is set (to a non-empty id) whenever the record is past
MISSING. -/
def volIdSet (st : St) : Prop :=
  st.state ≠ .missing → ∃ v, st.volume_id = some v ∧ v ≠ ""

theorem createMissing_ok (env : Env) (st : St) (defn : EbsVolumeOptions)
    (p : St × EbsVolumeOptions × Effects)
    (h : createMissing env st defn = .ok p) :
    p.1.state = .starting ∧ p.1.access_key_id = st.access_key_id ∧
    (env.createVolumeId ≠ "" → ∃ v, p.1.volume_id = some v ∧ v ≠ "") := by
  simp only [createMissing] at h
  by_cases hv : defn.volumeId ≠ ""
  · simp only [if_pos hv] at h
    rcases hd : env.describeVolume defn.volumeId with _ | v
    · simp [_get_vol, hd] at h
    · simp only [_get_vol, hd] at h
      simp at h
      subst h
      exact ⟨rfl, rfl, fun _ => ⟨defn.volumeId, rfl, hv⟩⟩
  · simp only [if_neg hv] at h
    by_cases hs : defn.size = 0 ∧ defn.snapshot ≠ ""
    · simp only [if_pos hs] at h
      rcases hsnap : env.snapshotSize defn.snapshot with _ | sz
      · simp [hsnap] at h
      · simp only [hsnap] at h
        rcases hz : defn.zone with _ | z
        · simp [hz] at h
        · simp [hz] at h
          subst h
          exact ⟨rfl, rfl, fun hid => ⟨env.createVolumeId, rfl, hid⟩⟩
    · simp only [if_neg hs] at h
      rcases hz : defn.zone with _ | z
      · simp [hz] at h
      · simp [hz] at h
        subst h
        exact ⟨rfl, rfl, fun hid => ⟨env.createVolumeId, rfl, hid⟩⟩

theorem createFinish_ok (env : Env) (st : St) (chk : Bool)
    (p : St × Effects) (h : createFinish env st chk = .ok p) :
    (p.1 = st ∨ p.1 = { st with state := .up }) ∧
    p.2.createCalls = [] ∧ p.2.deleteCalls = [] := by
  unfold createFinish at h
  split at h
  · split at h
    · simp at h
      subst h
      exact ⟨.inr rfl, rfl, rfl⟩
    · simp at h
  · simp at h
    subst h
    exact ⟨.inl rfl, rfl, rfl⟩

/-- Inversion of a successful `create`: the final record comes from the
MISSING block's output (or the validated input record) with at most the
state bumped to UP by the finish block. -/
theorem create_ok_inv (env : Env) (st : St) (defn : EbsVolumeOptions)
    (chk : Bool) (q : St × EbsVolumeOptions × Effects)
    (h : create env st defn chk = .ok q) :
    ∃ p : St × EbsVolumeOptions × Effects,
      (if ({ st with access_key_id := resolveAccessKey env defn } : St).state
          = .missing then
         createMissing env { st with access_key_id := resolveAccessKey env defn }
           defn
       else
         .ok ({ st with access_key_id := resolveAccessKey env defn }, defn,
              Effects.empty)) = .ok p ∧
      (q.1 = p.1 ∨ q.1 = { p.1 with state := .up }) ∧
      q.2.1 = p.2.1 ∧
      q.2.2.createCalls = p.2.2.createCalls ∧
      q.2.2.deleteCalls = p.2.2.deleteCalls := by
  simp only [create] at h
  split at h
  · exact absurd h (by simp)
  · split at h
    · exact absurd h (by simp)
    · split at h
      · exact absurd h (by simp)
      · rename_i st1 defn1 eff1 heq
        split at h
        · exact absurd h (by simp)
        · rename_i st2 eff2 heq2
          simp at h
          obtain ⟨hfin, hcc, hdc⟩ := createFinish_ok env st1 chk (st2, eff2) heq2
          dsimp only at hfin hcc hdc
          subst h
          exact ⟨(st1, defn1, eff1), heq, hfin, rfl,
                 by simp [Effects.append, hcc], by simp [Effects.append, hdc]⟩

/-- On a successful `create`, the record after the MISSING block is past
MISSING and carries a non-empty volume id (given non-empty provider ids and
the invariant on the input record). -/
theorem create_phase1_fields (env : Env) (st : St) (defn : EbsVolumeOptions)
    (p : St × EbsVolumeOptions × Effects)
    (hid : env.createVolumeId ≠ "") (hinv : volIdSet st)
    (hp : (if ({ st with access_key_id := resolveAccessKey env defn } : St).state
              = .missing then
             createMissing env
               { st with access_key_id := resolveAccessKey env defn } defn
           else
             .ok ({ st with access_key_id := resolveAccessKey env defn }, defn,
                  Effects.empty)) = .ok p) :
    p.1.state ≠ .missing ∧ ∃ v, p.1.volume_id = some v ∧ v ≠ "" := by
  split at hp
  · obtain ⟨hs, -, hv⟩ := createMissing_ok env _ defn p hp
    refine ⟨?_, hv hid⟩
    rw [hs]
    decide
  · rename_i hm
    simp at hp
    subst hp
    exact ⟨hm, hinv hm⟩

/-- C5 amended: the first half of the invariant holds: a non-empty
`volume_id` whenever the state is past MISSING is preserved by `create` (for
an environment issuing non-empty volume ids), by `check` and by `destroy`
(which never touches the record).  The second half fails: `check` does not
clear `volume_id` on the transition back to MISSING (see the counterexample),
it only becomes vacuous because the state is MISSING. -/
theorem volume_id_invariant (env : Env) (st : St)
    (hid : env.createVolumeId ≠ "") (hinv : volIdSet st) :
    (∀ defn chk q, create env st defn chk = .ok q → volIdSet q.1) ∧
    volIdSet (check env st) ∧
    (∀ w, (destroy env st w).2.1 = st) := by
  refine ⟨?_, ?_, ?_⟩
  · intro defn chk q h
    obtain ⟨p, hp, hq, -, -, -⟩ := create_ok_inv env st defn chk q h
    obtain ⟨-, v, hv, hne⟩ := create_phase1_fields env st defn p hid hinv hp
    intro _
    rcases hq with hq | hq <;> rw [hq] <;> exact ⟨v, hv, hne⟩
  · unfold check
    split
    · exact hinv
    · intro hc
      exact absurd rfl hc
  · intro w
    unfold destroy
    split
    · rfl
    · split
      · rfl
      · split <;> rfl

/-- C6 counterexample: the stored credential is not pinned: on an existing
UP resource whose record carries `OLDKEY`, a `create` with a Definition
naming `AKIA1` succeeds and replaces the stored `access_key_id`. -/
theorem create_repins_access_key :
    create envA { stFresh with access_key_id := some "OLDKEY" } defnFresh false =
      .ok (stFresh, defnFresh, Effects.empty) ∧
    stFresh.access_key_id = some "AKIA1" ∧
    (some "AKIA1" : Option String) ≠ some "OLDKEY" :=
  ⟨rfl, rfl, by decide⟩

/-- C6 amended: `create` re-resolves the credential on every call and stores
it before doing anything else: after any successful `create` — existing
resource or not, whatever the Definition — the stored `access_key_id` equals
the credential freshly resolved from the Definition (or the environment),
not the previously pinned one. -/
theorem create_overwrites_access_key (env : Env) (st : St)
    (defn : EbsVolumeOptions) (chk : Bool) (q : St × EbsVolumeOptions × Effects)
    (h : create env st defn chk = .ok q) :
    q.1.access_key_id = resolveAccessKey env defn := by
  obtain ⟨p, hp, hq, -, -, -⟩ := create_ok_inv env st defn chk q h
  have hpk : p.1.access_key_id = resolveAccessKey env defn := by
    split at hp
    · exact (createMissing_ok env _ defn p hp).2.1
    · simp at hp
      subst hp
      rfl
  rcases hq with hq | hq <;> rw [hq] <;> exact hpk

theorem create_overwrites_access_key_witness :
    stFresh.access_key_id = resolveAccessKey envA defnFresh :=
  create_overwrites_access_key envA St.initial defnFresh false
    (stFresh, defnFresh, effFresh) rfl

/-- The size-0-from-snapshot configuration of the spec's scenario. -/
def defnSnap : EbsVolumeOptions :=
  { defnFresh with size := 0, snapshot := "snap-1" }

/-- C7: the creation path with `size == 0` and a snapshot writes the
snapshot's size into the Definition (`defn.config.size = snapshots[0]
.volume_size`): evaluating `create` at such an input returns the
configuration with `size` changed from 0 to the snapshot's 50, so the
Definition is not left unchanged.  (Against the immutable `ResourceOptions`
of the surrounding framework this assignment raises instead — either way the
code contradicts the spec's declared immutability of the Definition.) -/
theorem create_mutates_definition_size :
    create envA St.initial defnSnap false =
      .ok ({ stFresh with size := some 50 },
           { defnSnap with size := 50 },
           { Effects.empty with
             createCalls := [{ zone := "us-east-1a", size := 50,
                               snapshot := "snap-1", iops := none,
                               volume_type := "gp2" }],
             tagUpdates := 1, waits := 1 }) ∧
    defnSnap.size = 0 ∧
    ({ defnSnap with size := 50 } : EbsVolumeOptions) ≠ defnSnap :=
  ⟨rfl, rfl, by decide⟩

/-- C1: creating from MISSING with no `volumeId`, a zone, and a nonzero size
(with a resolvable credential, the provider returning a non-empty volume id,
and the availability wait succeeding) ends with state UP, the provider's
volume id recorded, and region/zone/size/volumeType taken from the
Definition; `iops` is the Definition's value (the provider-side override
only applies on the adoption path, which satisfies the claim's
disjunction). -/
theorem create_fresh_up
    (env : Env) (st : St) (defn : EbsVolumeOptions) (chk : Bool) (z : String)
    (hmiss : st.state = .missing)
    (hvid : defn.volumeId = "")
    (hzone : defn.zone = some z)
    (hsize : defn.size ≠ 0)
    (hkey : keyTruthy (resolveAccessKey env defn) = true)
    (hid : env.createVolumeId ≠ "")
    (havail : env.volumeAvailable (some env.createVolumeId) = true) :
    create env st defn chk =
      .ok ({ state := .up, access_key_id := resolveAccessKey env defn,
             region := some defn.region, zone := some z,
             volume_id := some env.createVolumeId, size := some defn.size,
             iops := defn.iops, volume_type := some defn.volumeType },
           defn,
           { Effects.empty with
             createCalls := [{ zone := z, size := defn.size,
                               snapshot := defn.snapshot, iops := defn.iops,
                               volume_type := defn.volumeType }],
             tagUpdates := 1, waits := 1 }) ∧
    env.createVolumeId ≠ "" := by
  refine ⟨?_, hid⟩
  simp [create, createMissing, createFinish, _exists, hmiss, hvid, hzone, hsize,
        hkey, havail, Effects.append, Effects.empty]

theorem create_fresh_up_witness :
    create envA St.initial defnFresh false = .ok (stFresh, defnFresh, effFresh) ∧
    envA.createVolumeId ≠ "" :=
  ⟨(create_fresh_up envA St.initial defnFresh false "us-east-1a" rfl rfl rfl
      (by decide) rfl (by decide) rfl).1,
   (create_fresh_up envA St.initial defnFresh false "us-east-1a" rfl rfl rfl
      (by decide) rfl (by decide) rfl).2⟩

theorem volume_id_invariant_witness :
    volIdSet (check envA stFresh) ∧ (destroy envA stFresh false).2.1 = stFresh :=
  ⟨(volume_id_invariant envA stFresh (by decide)
      (fun _ => ⟨"vol-new", rfl, by decide⟩)).2.1,
   (volume_id_invariant envA stFresh (by decide)
      (fun _ => ⟨"vol-new", rfl, by decide⟩)).2.2 false⟩

theorem createMissing_adopt_no_create (env : Env) (st : St)
    (defn : EbsVolumeOptions) (p : St × EbsVolumeOptions × Effects)
    (hvid : defn.volumeId ≠ "") (h : createMissing env st defn = .ok p) :
    p.2.2.createCalls = [] := by
  simp only [createMissing, if_pos hvid] at h
  rcases hd : env.describeVolume defn.volumeId with _ | v
  · simp [_get_vol, hd] at h
  · simp [_get_vol, hd] at h
    subst h
    rfl

/-- C2: adoption: with `volumeId` set in the Definition and the provider
describing the volume, `_get_vol` populates the whole observed record from
the describe result — zone, size and volumeType from the provider, `iops`
from the provider exactly for the IOPS-provisioned types io1/io2 and from
the Definition otherwise — and transitions the state to STARTING; and a
`create` run from MISSING on such a Definition issues no create-volume
call. -/
theorem create_adoption
    (env : Env) (st : St) (defn : EbsVolumeOptions) (chk : Bool) (v : Vol)
    (hvid : defn.volumeId ≠ "")
    (hdesc : env.describeVolume defn.volumeId = some v) :
    (∀ st0 : St, _get_vol env st0 defn =
      .ok { st0 with
            state := .starting, region := some defn.region,
            zone := some v.availabilityZone, size := some v.size,
            volume_id := some defn.volumeId,
            iops := if v.volumeType = "io1" ∨ v.volumeType = "io2"
                    then some v.iops else defn.iops,
            volume_type := some v.volumeType }) ∧
    (st.state = .missing →
     ∀ q : St × EbsVolumeOptions × Effects, create env st defn chk = .ok q →
       q.2.2.createCalls = []) := by
  constructor
  · intro st0
    simp [_get_vol, hdesc]
  · intro hmiss q h
    obtain ⟨p, hp, -, -, hcc, -⟩ := create_ok_inv env st defn chk q h
    rw [hcc]
    split at hp
    · exact createMissing_adopt_no_create env _ defn p hvid hp
    · rename_i hnm
      exact absurd hmiss hnm

/-- The adoption configuration of the spec's adoption scenario: only
`volumeId` identifies the volume; no zone is given. -/
def defnAdopt : EbsVolumeOptions :=
  { accessKeyId := "AKIA1", region := "us-east-1", zone := none, size := 0,
    volumeType := "gp2", iops := none, snapshot := "", volumeId := "vol-1",
    tags := [] }

/-- The provider-side description of `vol-1` in `envA`. -/
def vol1 : Vol :=
  { volumeType := "gp2", iops := 0, availabilityZone := "us-east-1a",
    size := 10 }

/-- The record after a full `create` adopting `vol-1` under `envA`. -/
def stAdoptUp : St :=
  { state := .up, access_key_id := some "AKIA1", region := some "us-east-1",
    zone := some "us-east-1a", volume_id := some "vol-1", size := some 10,
    iops := none, volume_type := some "gp2" }

/-- The provider-call trace of that adopting `create`. -/
def effAdopt : Effects :=
  { Effects.empty with lookups := 1, tagUpdates := 1, waits := 1 }

theorem create_adoption_witness :
    _get_vol envA St.initial defnAdopt =
      .ok { St.initial with
            state := .starting, region := some "us-east-1",
            zone := some "us-east-1a", size := some 10,
            volume_id := some "vol-1", iops := none,
            volume_type := some "gp2" } ∧
    effAdopt.createCalls = [] :=
  ⟨(create_adoption envA St.initial defnAdopt false vol1 (by decide) rfl).1
      St.initial,
   (create_adoption envA St.initial defnAdopt false vol1 (by decide) rfl).2
      rfl (stAdoptUp, defnAdopt, effAdopt) rfl⟩

/-- C3 counterexample: `create` is not idempotent on every UP resource with
an unchanged Definition.  Adopting `vol-1` (whose Definition has no zone)
succeeds and ends UP, but running `create` again with the very same
Definition raises the region/zone-change error, because the stored zone now
holds the provider-observed `us-east-1a` while the Definition still has
none. -/
theorem create_not_idempotent_after_adoption :
    create envA St.initial defnAdopt false =
      .ok (stAdoptUp, defnAdopt, effAdopt) ∧
    create envA stAdoptUp defnAdopt false = .error (.exc msgRegionZone) :=
  ⟨rfl, rfl⟩

/-- `create` on a record that is UP and in full agreement with the
Definition succeeds, keeps the Definition untouched, and issues neither a
create-volume nor a delete call (at most the tag/wait pair when re-checking). -/
theorem create_on_settled (env : Env) (st : St) (defn : EbsVolumeOptions)
    (c2 : Bool)
    (hkey : keyTruthy (resolveAccessKey env defn) = true)
    (hstate : st.state = .up)
    (hreg : st.region = some defn.region)
    (hzone : st.zone = defn.zone)
    (hsize : st.size = some defn.size ∨ defn.size = 0)
    (htype : st.volume_type = some defn.volumeType)
    (hiops : st.iops = defn.iops)
    (havail : env.volumeAvailable st.volume_id = true) :
    ∃ st2 eff2, create env st defn c2 = .ok (st2, defn, eff2) ∧
      eff2.createCalls = [] ∧ eff2.deleteCalls = [] := by
  have hchk : ∀ s0 a0, checkImmutable
      { st with state := s0, access_key_id := a0 } defn = none := by
    intro s0 a0
    unfold checkImmutable
    rcases hsize with hsz | hsz <;> simp [hreg, hzone, htype, hiops, hsz]
  cases c2
  · refine ⟨{ st with access_key_id := resolveAccessKey env defn },
            Effects.empty.append Effects.empty, ?_, rfl, rfl⟩
    simp [create, hkey, _exists, hstate, hchk, createFinish]
  · refine ⟨{ st with access_key_id := resolveAccessKey env defn, state := .up },
            Effects.empty.append
              { Effects.empty with tagUpdates := 1, waits := 1 },
            ?_, rfl, rfl⟩
    simp [create, hkey, _exists, hstate, hchk, createFinish, havail]

/-- C3 amended: idempotence holds for the creation path: when an UP record
was produced by a `create` from MISSING whose Definition had no `volumeId`,
a second `create` with the same Definition never errors and performs no
provider mutation beyond tag reconciliation — no create-volume and no
delete call is issued.  (For adoption-produced records the second call can
instead fail the immutability checks, see the counterexample.) -/
theorem create_idempotent_after_fresh_create
    (env : Env) (st : St) (defn : EbsVolumeOptions) (c1 c2 : Bool)
    (q1 : St × EbsVolumeOptions × Effects)
    (hmiss : st.state = .missing) (hvid : defn.volumeId = "")
    (h1 : create env st defn c1 = .ok q1) :
    ∃ st2 eff2, create env q1.1 defn c2 = .ok (st2, defn, eff2) ∧
      eff2.createCalls = [] ∧ eff2.deleteCalls = [] := by
  by_cases hkeyf : keyTruthy (resolveAccessKey env defn) = false
  · rw [create, if_pos hkeyf] at h1
    exact absurd h1 (by simp)
  · have hkey : keyTruthy (resolveAccessKey env defn) = true := by
      revert hkeyf
      cases keyTruthy (resolveAccessKey env defn) <;> simp
    by_cases hs : defn.size = 0 ∧ defn.snapshot ≠ ""
    · rcases hsnap : env.snapshotSize defn.snapshot with _ | sz
      · simp [create, createMissing, _exists, hmiss, hvid, hkey, hs, hsnap]
          at h1
      · rcases hz : defn.zone with _ | z
        · simp [create, createMissing, _exists, hmiss, hvid, hkey, hs, hsnap,
                hz] at h1
        · rcases hav : env.volumeAvailable (some env.createVolumeId) with _ | _
          · simp [create, createMissing, createFinish, _exists, hmiss, hvid,
                  hkey, hs, hsnap, hz, hav] at h1
          · simp [create, createMissing, createFinish, _exists, hmiss, hvid,
                  hkey, hs, hsnap, hz, hav] at h1
            subst h1
            exact create_on_settled env _ defn c2 hkey rfl rfl hz.symm
              (Or.inr hs.1) rfl rfl hav
    · rcases hz : defn.zone with _ | z
      · simp [create, createMissing, _exists, hmiss, hvid, hkey, hs, hz] at h1
      · rcases hav : env.volumeAvailable (some env.createVolumeId) with _ | _
        · simp [create, createMissing, createFinish, _exists, hmiss, hvid,
                hkey, hs, hz, hav] at h1
        · simp [create, createMissing, createFinish, _exists, hmiss, hvid,
                hkey, hs, hz, hav] at h1
          subst h1
          exact create_on_settled env _ defn c2 hkey rfl rfl hz.symm
            (Or.inl rfl) rfl rfl hav

theorem create_idempotent_after_fresh_create_witness :
    ∃ st2 eff2,
      create envA stFresh defnFresh true = .ok (st2, defnFresh, eff2) ∧
      eff2.createCalls = [] ∧ eff2.deleteCalls = [] :=
  create_idempotent_after_fresh_create envA St.initial defnFresh false true
    (stFresh, defnFresh, effFresh) rfl rfl rfl

end EbsVolume
